import Mathlib

/-!
# Verification of the user-management-service session/authentication core

A shallow embedding of the session lifecycle and security-question protocol
of the `user-management-service` repository, together with proofs of the
spec's claims about it.

Embedded source files:
* `src/utils/sessionManager.js` — token codec, session store (create /
  rotate / invalidate / sweep).
* `src/middleware/auth.js` — the request-time authentication gate.
* `src/controllers/biometricFallbackController.js` — security-question
  challenge protocol.
* `src/unnamed/part_000` (encryption utilities) — AES-256-GCM field
  encryption (`encryptSensitiveData` / `decryptSensitiveData`).

Modelling conventions:
* Machine time (SQL `NOW()`, JWT clock) is a `Nat` parameter `now`
  (seconds).
* The relational store is a record of lists of rows; each SQL statement
  becomes a pure function on that record.
* JWT tokens are symbolic: a token is either a structured signed token
  (claims, issued-at, expiry, signing secret) or a raw opaque string that
  fails verification.  `jwt.verify` checks the signature (secret equality)
  before the expiry claim, as the `jsonwebtoken` library does.
* Randomness (refresh tokens, UUID generation ids, AES IVs) is supplied by
  the caller as explicit oracle parameters.
* RSA-OAEP and SHA-256 from the fallback-auth flow are modelled
  symbolically (Dolev–Yao style): a ciphertext records the encrypting key
  id and payload, decryption succeeds exactly under the matching key, and
  a hash is a constructor applied to the hashed string.
* JavaScript falsy-string checks (`!x`, `x || d`) are modelled explicitly:
  a `Option String` value is "present" when it is `some s` with `s ≠ ""`.
-/

namespace UserMgmt

/-! ## JavaScript string truthiness helpers -/

/-- JS `x || d` for a nullable string `x`: the default fires on `null` /
`undefined` / `""`. -/
def jsOr (x : Option String) (d : String) : String :=
  match x with
  | none => d
  | some s => if s = "" then d else s

/-- JS truthiness of a nullable string: `!x` is true on `null` /
`undefined` / `""`. -/
def jsPresent (x : Option String) : Bool :=
  match x with
  | none => false
  | some s => s ≠ ""

/-! ## Token codec (`src/utils/sessionManager.js`) -/

/-- JWT payload used throughout the service: `{userId, userType, adminRole}`.
`userType` / `adminRole` are nullable in the database, hence `Option`. -/
structure Claims where
  userId : Nat
  userType : Option String
  adminRole : Option String
deriving DecidableEq, Repr

/-- A token value as it travels through the system.  `jwt` is a token
produced by `jwt.sign` (symbolic: payload, issued-at, expiry, signing
secret); `raw` is any other string (opaque refresh tokens presented where
an access token is expected, garbage, ...), which always fails JWT
verification. -/
inductive Tok where
  | jwt (claims : Claims) (iat : Nat) (exp : Nat) (secret : String)
  | raw (s : String)
deriving DecidableEq, Repr

/-- Errors thrown by `jwt.verify`. -/
inductive VerifyErr where
  | TokenExpired
  | TokenInvalid
deriving DecidableEq, Repr

/-- Service configuration: `JWT_SECRET`, `ACCESS_TOKEN_EXPIRY`,
`REFRESH_TOKEN_EXPIRY` (the latter two are duration strings such as
`"1m"`). -/
structure Config where
  secret : String
  accessExpiry : String
  refreshExpiry : String
deriving Repr

/-- The shipped default configuration (`'1m'` access, `'2m'` refresh). -/
def defaultConfig : Config :=
  { secret := "vottery_secret_key_change_in_production"
  , accessExpiry := "1m"
  , refreshExpiry := "2m" }

/-- Value of one duration unit character in seconds (`parseExpiryToSeconds`
switch). -/
def unitSeconds (u : Char) : Nat :=
  if u = 's' then 1
  else if u = 'm' then 60
  else if u = 'h' then 3600
  else 86400

/-- Digit-string to number, as `parseInt(·, 10)` on a digits-only match. -/
def digitsToNat (cs : List Char) : Nat :=
  cs.foldl (fun acc c => acc * 10 + (c.toNat - 48)) 0

/-- Embeds `parseExpiryToSeconds` of `src/utils/sessionManager.js`: the regex
`^(\d+)([smhd])$` followed by the unit switch.  `none` models the thrown
`Invalid expiry format` error. -/
def parseExpiryToSeconds (expiry : String) : Option Nat :=
  let cs := expiry.data
  match cs.getLast? with
  | none => none
  | some u =>
      let digits := cs.dropLast
      if digits ≠ [] ∧ (∀ c ∈ digits, c.isDigit) ∧ (u = 's' ∨ u = 'm' ∨ u = 'h' ∨ u = 'd') then
        some (digitsToNat digits * unitSeconds u)
      else none

/-- Embeds `generateAccessToken`: `jwt.sign(payload, JWT_SECRET, {expiresIn})`.
The expiry duration in seconds is supplied (the caller has already parsed
the configured duration). -/
def generateAccessToken (cfg : Config) (now : Nat) (aSec : Nat) (payload : Claims) : Tok :=
  Tok.jwt payload now (now + aSec) cfg.secret

/-- Embeds `verifyAccessToken`: `jwt.verify(token, JWT_SECRET)`.  A raw string or
a wrong-secret token is `TokenInvalid` (JsonWebTokenError); a
correctly-signed token past its expiry is `TokenExpired`
(TokenExpiredError); otherwise the decoded claims are returned. -/
def verifyAccessToken (cfg : Config) (now : Nat) (t : Tok) : Except VerifyErr Claims :=
  match t with
  | Tok.raw _ => .error .TokenInvalid
  | Tok.jwt c _ exp secret =>
      if secret ≠ cfg.secret then .error .TokenInvalid
      else if exp ≤ now then .error .TokenExpired
      else .ok c

/-! ## Relational store rows -/

/-- One row of `vottery_user_management` (only the columns the session
core reads). -/
structure UserRow where
  user_id : Nat
  user_type : Option String
  admin_role : Option String
deriving DecidableEq, Repr

/-- One row of `vottery_sessions`. -/
structure SessionRow where
  id : Nat
  user_id : Nat
  session_token : Tok
  refresh_token : String
  jwt_token_id : Nat
  device_id : Option String
  ip_address : Option String
  user_agent : Option String
  user_type : Option String
  admin_role : Option String
  is_active : Bool
  created_at : Nat
  expires_at : Nat
  refresh_expires_at : Nat
  last_activity : Nat
deriving DecidableEq, Repr

/-- Symbolic RSA-OAEP ciphertext: records the key-pair id it was encrypted
under and the plaintext it protects.  Decryption succeeds exactly under
the matching private key. -/
inductive Ciphertext where
  | rsa (keyId : Nat) (plaintext : String)
deriving DecidableEq, Repr

/-- Symbolic SHA-256 digest of a string. -/
inductive Digest where
  | sha256 (s : String)
deriving DecidableEq, Repr

/-- One row of `vottery_biometric_keys`.  `public_key` / `encrypted_private_key`
are the PEM public key and the base64-wrapped private key; symbolically both
are the key-pair id. -/
structure KeyRow where
  user_id : Nat
  public_key : Nat
  encrypted_private_key : Nat
deriving DecidableEq, Repr

/-- One row of `vottery_security_questions`. -/
structure QuestionRow where
  id : Nat
  user_id : Nat
  question : String
  encrypted_answer : Ciphertext
  signature_ : Digest
deriving DecidableEq, Repr

/-- The persistent store: all tables the session/auth core touches. -/
structure DB where
  users : List UserRow
  sessions : List SessionRow
  keys : List KeyRow
  questions : List QuestionRow
deriving DecidableEq, Repr

/-! ## Session store (`src/utils/sessionManager.js`) -/

/-- Errors of `createSession`: `User not found`, or a thrown
`Invalid expiry format` / storage fault (`Internal`). -/
inductive CreateErr where
  | UserNotFound
  | Internal
deriving DecidableEq, Repr

/-- Errors of `rotateRefreshToken`: `Invalid or expired refresh token`, or
a thrown expiry-parse / storage fault (`Internal`). -/
inductive RotErr where
  | RefreshTokenInvalid
  | Internal
deriving DecidableEq, Repr

/-- The row filter of `createSession`'s user lookup:
`SELECT user_type, admin_role FROM vottery_user_management WHERE user_id = $1`. -/
def userMatch (userId : Nat) (u : UserRow) : Bool :=
  u.user_id = userId

/-- Embeds `createSession({userId, accessToken, refreshToken, deviceId, ipAddress,
userAgent})`.  `now` is SQL `NOW()`, `jwtTokenId` the `crypto.randomUUID()`
oracle, `newId` the row id the INSERT allocates.  Mirrors the source order:
parse both expiry durations (throw on bad format), look up the user's role
snapshot (throw `User not found` on zero rows), INSERT the new row with
`is_active = TRUE`, `expires_at = NOW() + aSec`,
`refresh_expires_at = NOW() + rSec`, `last_activity = NOW()`. -/
def createSession (cfg : Config) (now : Nat) (jwtTokenId : Nat) (newId : Nat)
    (db : DB) (userId : Nat) (accessToken : Tok) (refreshToken : String)
    (deviceId : Option String) (ipAddress : Option String) (userAgent : Option String) :
    Except CreateErr (DB × Tok × String) :=
  match parseExpiryToSeconds cfg.accessExpiry, parseExpiryToSeconds cfg.refreshExpiry with
  | some aSec, some rSec =>
      match (db.users.filter (userMatch userId)).head? with
      | none => .error .UserNotFound
      | some u =>
          let row : SessionRow :=
            { id := newId
            , user_id := userId
            , session_token := accessToken
            , refresh_token := refreshToken
            , jwt_token_id := jwtTokenId
            , device_id := deviceId
            , ip_address := ipAddress
            , user_agent := userAgent
            , user_type := u.user_type
            , admin_role := u.admin_role
            , is_active := true
            , created_at := now
            , expires_at := now + aSec
            , refresh_expires_at := now + rSec
            , last_activity := now }
          .ok ({ db with sessions := db.sessions ++ [row] }, accessToken, refreshToken)
  | _, _ => .error .Internal

/-- The row filter of `rotateRefreshToken`'s SELECT:
`refresh_token = $1 AND device_id = $2 AND is_active = TRUE AND
refresh_expires_at > NOW()`.  (SQL `device_id = $2` never matches a NULL
column, hence `some deviceId`.) -/
def rotateMatch (now : Nat) (refreshToken deviceId : String) (s : SessionRow) : Bool :=
  s.refresh_token = refreshToken && s.device_id = some deviceId
    && s.is_active && decide (now < s.refresh_expires_at)

/-- Result of one `rotateRefreshToken` call: the value or error returned to
the caller, the final store state, and the trace of store states observable
after each statement the call issues (the SELECT leaves the store unchanged;
the single UPDATE writes both tokens at once). -/
structure RotOut where
  result : Except RotErr (Tok × String)
  db : DB
  trace : List DB
deriving Repr

/-- Embeds `rotateRefreshToken({refreshToken, deviceId})`.  `freshRefresh` is the
`generateRefreshToken()` oracle (random 64-byte hex string) and `freshGen`
the new `crypto.randomUUID()` generation id.  Mirrors the source: SELECT the
active, non-expired sessions matching the pair; zero rows → throw
`Invalid or expired refresh token`; otherwise take the first row, build the
new access token from the row's role snapshot with falsy-defaults
(`session.user_type || 'voter'`, `session.admin_role || 'analyst'`), parse
the configured durations (throw on bad format), and issue one UPDATE on the
row's id setting the new access token, refresh token, generation id, both
expiries and the activity timestamp together. -/
def rotateRefreshToken (cfg : Config) (now : Nat) (freshRefresh : String) (freshGen : Nat)
    (db : DB) (refreshToken deviceId : String) : RotOut :=
  match db.sessions.filter (rotateMatch now refreshToken deviceId) with
  | [] => { result := .error .RefreshTokenInvalid, db := db, trace := [db] }
  | s :: _ =>
      match parseExpiryToSeconds cfg.accessExpiry, parseExpiryToSeconds cfg.refreshExpiry with
      | some aSec, some rSec =>
          let newAccessToken := generateAccessToken cfg now aSec
            { userId := s.user_id
            , userType := some (jsOr s.user_type "voter")
            , adminRole := some (jsOr s.admin_role "analyst") }
          let db' : DB :=
            { db with sessions := db.sessions.map (fun r =>
                if r.id = s.id then
                  { r with
                    session_token := newAccessToken,
                    refresh_token := freshRefresh,
                    jwt_token_id := freshGen,
                    expires_at := now + aSec,
                    refresh_expires_at := now + rSec,
                    last_activity := now }
                else r) }
          { result := .ok (newAccessToken, freshRefresh), db := db', trace := [db, db'] }
      | _, _ => { result := .error .Internal, db := db, trace := [db] }

/-- Embeds `invalidateSession(sessionToken)`:
`UPDATE vottery_sessions SET is_active = FALSE WHERE session_token = $1`. -/
def invalidateSession (db : DB) (sessionToken : Tok) : DB :=
  { db with sessions := db.sessions.map (fun s =>
      if s.session_token = sessionToken then { s with is_active := false } else s) }

/-- Embeds `cleanupExpiredSessions()`:
`UPDATE vottery_sessions SET is_active = FALSE WHERE refresh_expires_at <= NOW()
AND is_active = TRUE`. -/
def cleanupExpiredSessions (now : Nat) (db : DB) : DB :=
  { db with sessions := db.sessions.map (fun s =>
      if s.refresh_expires_at ≤ now && s.is_active then { s with is_active := false } else s) }

/-! ## Authentication gate (`src/middleware/auth.js`) -/

/-- Outcome of `authenticateToken` as the caller observes it: an HTTP
failure (status, `code` field), or `next()` with `req.user` set to the
resolved identity and `req.tokenRotated` set when rotation occurred. -/
inductive AuthOutcome where
  | fail (status : Nat) (code : String)
  | success (identity : Claims) (rotated : Bool)
deriving DecidableEq, Repr

/-- Result of one gate invocation: outcome, final store state, and the
`x-access-token` / `x-refresh-token` response headers (set only when
rotation succeeded). -/
structure AuthResult where
  outcome : AuthOutcome
  db : DB
  newTokenHeaders : Option (Tok × String)
deriving Repr

/-- Truthiness of the extracted bearer token
(`authHeader?.split(' ')[1]?.trim()` followed by `if (!accessToken)`): a
missing header or an empty extracted string is absent; any signed JWT
prints as a non-empty string. -/
def tokPresent (t : Option Tok) : Bool :=
  match t with
  | none => false
  | some (Tok.raw s) => s ≠ ""
  | some (Tok.jwt _ _ _ _) => true

/-- The row filter of the gate's session SELECT:
`session_token = $1 AND is_active = TRUE AND expires_at > NOW()`. -/
def sessionMatch (now : Nat) (tok : Tok) (s : SessionRow) : Bool :=
  s.session_token = tok && s.is_active && decide (now < s.expires_at)

/-- The gate's activity UPDATE:
`UPDATE vottery_sessions SET last_activity = NOW() WHERE session_token = $1`
(note: no `is_active` condition). -/
def touchSessions (now : Nat) (tok : Tok) (db : DB) : DB :=
  { db with sessions := db.sessions.map (fun s =>
      if s.session_token = tok then { s with last_activity := now } else s) }

/-- Shared tail of the gate: the session SELECT, the activity UPDATE, and
the `req.user` assignment, run with the active access token (the presented
one, or the freshly rotated one). -/
def sessionCheck (now : Nat) (db : DB) (activeTok : Tok) (decoded : Claims)
    (rotated : Bool) (headers : Option (Tok × String)) : AuthResult :=
  if (db.sessions.filter (sessionMatch now activeTok)).length = 0 then
    { outcome := .fail 401 "SESSION_INVALID", db := db, newTokenHeaders := headers }
  else
    { outcome := .success decoded rotated
    , db := touchSessions now activeTok db
    , newTokenHeaders := headers }

/-- Embeds `authenticateToken(req, res, next)`.  Inputs are the extracted bearer
token, the `x-refresh-token` header / `refreshToken` body field, and the
`x-device-id` header / `device_id` body field; `freshRefresh` / `freshGen`
feed a rotation if one happens.  Mirrors the source control flow:
missing access token → 401 `NO_ACCESS_TOKEN`; verification failure other
than expiry → 403 `ACCESS_TOKEN_INVALID`; expiry with refresh token or
device id missing → 401 `TOKEN_EXPIRED_NO_REFRESH`; expiry with both
present → rotate (failure → 401 `REFRESH_TOKEN_INVALID`), set the new-pair
response headers, re-verify the new token (failure would escape to the
outer catch → 500 `SERVER_ERROR`), then the session check with the active
token. -/
def authenticateToken (cfg : Config) (now : Nat) (freshRefresh : String) (freshGen : Nat)
    (db : DB) (accessToken : Option Tok) (refreshToken deviceId : Option String) :
    AuthResult :=
  if tokPresent accessToken = false then
    { outcome := .fail 401 "NO_ACCESS_TOKEN", db := db, newTokenHeaders := none }
  else
    match accessToken with
    | none => { outcome := .fail 401 "NO_ACCESS_TOKEN", db := db, newTokenHeaders := none }
    | some tok =>
        match verifyAccessToken cfg now tok with
        | .ok decoded => sessionCheck now db tok decoded false none
        | .error .TokenInvalid =>
            { outcome := .fail 403 "ACCESS_TOKEN_INVALID", db := db, newTokenHeaders := none }
        | .error .TokenExpired =>
            if jsPresent refreshToken = false ∨ jsPresent deviceId = false then
              { outcome := .fail 401 "TOKEN_EXPIRED_NO_REFRESH", db := db, newTokenHeaders := none }
            else
              let rot := rotateRefreshToken cfg now freshRefresh freshGen db
                (refreshToken.getD "") (deviceId.getD "")
              match rot.result with
              | .error _ =>
                  { outcome := .fail 401 "REFRESH_TOKEN_INVALID", db := rot.db
                  , newTokenHeaders := none }
              | .ok (newAccess, newRefresh) =>
                  match verifyAccessToken cfg now newAccess with
                  | .error _ =>
                      { outcome := .fail 500 "SERVER_ERROR", db := rot.db
                      , newTokenHeaders := some (newAccess, newRefresh) }
                  | .ok decoded =>
                      sessionCheck now rot.db newAccess decoded true
                        (some (newAccess, newRefresh))

/-! ## Security-question challenge protocol
(`src/controllers/biometricFallbackController.js`) -/

/-- Errors of the challenge protocol (thrown `Error` messages):
`User keys not found`, `Invalid question ID`, `Answer mismatch`,
`Signature mismatch`, plus `Internal` for a thrown crypto/storage fault
(e.g. OAEP decryption failure under a wrong key). -/
inductive SqErr where
  | KeysNotFound
  | InvalidQuestionId
  | AnswerMismatch
  | SignatureMismatch
  | Internal
deriving DecidableEq, Repr

/-- One element of the `answers` array: `{questionId, answer}`. -/
structure Answer where
  questionId : Nat
  answer : String
deriving DecidableEq, Repr

/-- Symbolic `privateKey.decrypt(ciphertext, 'RSA-OAEP')`: succeeds with
the plaintext exactly when the ciphertext was produced under the matching
key pair, throws (models OAEP padding failure) otherwise. -/
def rsaDecrypt (privKeyId : Nat) : Ciphertext → Except Unit String
  | .rsa k m => if k = privKeyId then .ok m else .error ()

/-- Symbolic `publicKey.encrypt(answer, 'RSA-OAEP')` (plus the base64
wrapping, which the verifier undoes). -/
def rsaEncrypt (pubKeyId : Nat) (m : String) : Ciphertext :=
  .rsa pubKeyId m

/-- Symbolic `crypto.createHash('sha256').update(s).digest('hex')`. -/
def sha256 (s : String) : Digest :=
  .sha256 s

/-- The key lookup shared by the protocol operations:
`SELECT ... FROM vottery_biometric_keys WHERE user_id=$1` followed by the
`rowCount === 0` check and `rows[0]`. -/
def keyFor (db : DB) (userId : Nat) : Option KeyRow :=
  (db.keys.filter (fun k => k.user_id = userId)).head?

/-- The stored-question SELECT of `verifySecurityAnswers`:
`SELECT id, encrypted_answer, signature FROM vottery_security_questions
WHERE user_id=$1 AND id = ANY($2)`. -/
def userQuestions (db : DB) (userId : Nat) (questionIds : List Nat) : List QuestionRow :=
  db.questions.filter (fun q => q.user_id = userId && questionIds.contains q.id)

/-- Embeds `registerKeys(userId)`: unconditionally INSERTs a key-pair row for the
user (`keyId` is the generated RSA-2048 key pair, symbolically an id). -/
def registerKeys (db : DB) (userId : Nat) (keyId : Nat) : DB :=
  { db with keys := db.keys ++ [{ user_id := userId, public_key := keyId
                                , encrypted_private_key := keyId }] }

/-- Embeds `addSecurityQuestion(userId, question, answer)`: fails with
`User keys not found` if the user has no key-pair row; otherwise encrypts
the answer under the user's public key, hashes the plaintext, and INSERTs
the row (`newId` is the id the INSERT allocates). -/
def addSecurityQuestion (db : DB) (userId : Nat) (question answer : String)
    (newId : Nat) : Except SqErr DB :=
  match keyFor db userId with
  | none => .error .KeysNotFound
  | some k =>
      .ok { db with questions := db.questions ++
              [{ id := newId, user_id := userId, question := question
               , encrypted_answer := rsaEncrypt k.public_key answer
               , signature_ := sha256 answer }] }

/-- The per-answer body of the verification loop in `verifySecurityAnswers`:
find the stored row among the SELECTed rows (`Invalid question ID` if
absent), decrypt the stored answer with the private key, compare to the
supplied answer (`Answer mismatch`), then recompute the SHA-256 hash of the
decrypted answer and compare to the stored signature (`Signature mismatch`);
recurse on the remaining answers. -/
def checkAnswers (privKeyId : Nat) (dbRows : List QuestionRow) :
    List Answer → Except SqErr Bool
  | [] => .ok true
  | a :: rest =>
      match (dbRows.filter (fun q => q.id = a.questionId)).head? with
      | none => .error .InvalidQuestionId
      | some dbQ =>
          match rsaDecrypt privKeyId dbQ.encrypted_answer with
          | .error _ => .error .Internal
          | .ok decryptedAnswer =>
              if decryptedAnswer ≠ a.answer then .error .AnswerMismatch
              else if sha256 decryptedAnswer ≠ dbQ.signature_ then .error .SignatureMismatch
              else checkAnswers privKeyId dbRows rest

/-- Embeds `verifySecurityAnswers(userId, answers)`: fetch the user's private key
(`User keys not found` on zero rows), SELECT the stored questions whose ids
appear among the supplied answers, then run the verification loop.  Returns
`true` when every answer passes; read-only on the store. -/
def verifySecurityAnswers (db : DB) (userId : Nat) (answers : List Answer) :
    Except SqErr Bool :=
  match keyFor db userId with
  | none => .error .KeysNotFound
  | some keyRow =>
      checkAnswers keyRow.encrypted_private_key
        (userQuestions db userId (answers.map (·.questionId))) answers

/-! ## Field encryption utility (`src/unnamed/part_000`)

`encryptSensitiveData` / `decryptSensitiveData`: AES-256-GCM with envelope
`ivHex:authTagHex:cipherHex`.  The cipher itself is modelled symbolically:
ciphertext is an injective hex rendering of the plaintext (six hex digits
per code point), and the GCM authentication tag is a symbolic MAC over
(key, iv, ciphertext) — decryption succeeds exactly when the tag recomputed
from the presented envelope matches, as GCM's `final()` enforces. -/

/-- Hex digit character for a value `< 16` (lowercase, as Node's `'hex'`
encoding produces). -/
def hexDigit (n : Nat) : Char :=
  if n < 10 then Char.ofNat (48 + n) else Char.ofNat (87 + n)

/-- Numeric value of a lowercase hex digit character. -/
def hexDigitVal (c : Char) : Option Nat :=
  if 48 ≤ c.toNat ∧ c.toNat ≤ 57 then some (c.toNat - 48)
  else if 97 ≤ c.toNat ∧ c.toNat ≤ 102 then some (c.toNat - 87)
  else none

/-- Big-endian fixed-width hex rendering of `n % 16^k`. -/
def hexN : Nat → Nat → List Char
  | 0, _ => []
  | k + 1, n => hexDigit (n / 16 ^ k % 16) :: hexN k n

/-- Parse exactly `k` hex digit characters, big-endian. -/
def decodeN : Nat → List Char → Option Nat
  | 0, [] => some 0
  | 0, _ :: _ => none
  | _ + 1, [] => none
  | k + 1, c :: cs =>
      match hexDigitVal c, decodeN k cs with
      | some d, some rest => some (d * 16 ^ k + rest)
      | _, _ => none

/-- Hex rendering of a byte list (an IV, an auth tag). -/
def bytesToHex (bs : List Nat) : List Char :=
  bs.flatMap (fun b => hexN 2 (b % 256))

/-- Symbolic cipher: six hex digits per code point (injective, hex-only —
stands in for the AES-256-GCM ciphertext hex). -/
def encodeChars (cs : List Char) : List Char :=
  cs.flatMap (fun c => hexN 6 c.toNat)

/-- Inverse of `encodeChars`: consume six hex digits at a time and rebuild
each code point (failing on truncated input, non-hex digits, or an invalid
code point). -/
def decodeChars : List Char → Option (List Char)
  | [] => some []
  | c1 :: c2 :: c3 :: c4 :: c5 :: c6 :: rest =>
      match decodeN 6 [c1, c2, c3, c4, c5, c6] with
      | none => none
      | some n =>
          if h : n.isValidChar then
            match decodeChars rest with
            | none => none
            | some cs => some (Char.ofNatAux n h :: cs)
          else none
  | _ => none

/-- Symbolic GCM authentication tag over (key, iv, ciphertext) — with the
constant AAD `'vottery'` folded in. -/
def gcmTag (key ivHex cipherHex : List Char) : List Char :=
  encodeChars (key ++ '|' :: ivHex ++ '|' :: cipherHex)

/-- JS `String.prototype.split(sep)` on a one-character separator
(`''.split(':') = ['']`, separators at the ends produce empty groups). -/
def splitOnChar (sep : Char) : List Char → List (List Char)
  | [] => [[]]
  | c :: rest =>
      let r := splitOnChar sep rest
      if c = sep then [] :: r
      else
        match r with
        | [] => [[c]]
        | g :: gs => (c :: g) :: gs

/-- Embeds `encryptSensitiveData(text)`.  `key` is the scrypt-derived AES key (a
configuration constant), `iv` the `crypto.randomBytes(16)` oracle.  A falsy
(empty) input returns `null`; otherwise the envelope
`ivHex:authTagHex:cipherHex` is produced.  (The catch-fallback that would
return the plaintext on a thrown crypto fault is unreachable in the model:
the symbolic cipher is total.) -/
def encryptSensitiveData (key : String) (iv : List Nat) (text : String) : Option String :=
  if text = "" then none
  else
    let ivHex := bytesToHex iv
    let cipherHex := encodeChars text.data
    let tag := gcmTag key.data ivHex cipherHex
    some ⟨ivHex ++ ':' :: tag ++ ':' :: cipherHex⟩

/-- The decryption body of `decryptSensitiveData` (everything inside the
`try`): destructure the first three `:`-separated components (fewer than
three throws on the `undefined` component), recompute the GCM tag and
compare (mismatch throws in `final()`), decode the ciphertext hex.  `none`
models a throw, caught by the enclosing `catch`. -/
def decryptCore (key : String) (s : String) : Option String :=
  match splitOnChar ':' s.data with
  | ivHex :: tagHex :: cipherHex :: _ =>
      if gcmTag key.data ivHex cipherHex = tagHex then
        match decodeChars cipherHex with
        | some cs => some ⟨cs⟩
        | none => none
      else none
  | _ => none

/-- Embeds `decryptSensitiveData(encrypted)`: `null` and non-envelope values
(empty, or containing no `:`) are returned as-is; otherwise the decryption
body runs and any failure falls back to returning the input unchanged —
the function never throws to its caller. -/
def decryptSensitiveData (key : String) (encrypted : Option String) : Option String :=
  match encrypted with
  | none => none
  | some s =>
      if s = "" ∨ ¬ s.data.contains ':' then some s
      else
        match decryptCore key s with
        | some d => some d
        | none => some s

/-! ## Derived predicates used by the verification -/

/-- One answer passes every check of the verification loop: its question id
resolves among the SELECTed rows, the stored ciphertext decrypts under the
private key to exactly the supplied answer, and the recomputed hash equals
the stored signature. -/
def answerOk (privKeyId : Nat) (dbRows : List QuestionRow) (a : Answer) : Bool :=
  match (dbRows.filter (fun q => q.id = a.questionId)).head? with
  | none => false
  | some dbQ =>
      match rsaDecrypt privKeyId dbQ.encrypted_answer with
      | .error _ => false
      | .ok d => d = a.answer && decide (sha256 d = dbQ.signature_)

/-- The session-row expiry invariant: access expiry never exceeds refresh
expiry. -/
def rowExpiryInv (s : SessionRow) : Prop :=
  s.expires_at ≤ s.refresh_expires_at

instance (s : SessionRow) : Decidable (rowExpiryInv s) :=
  inferInstanceAs (Decidable (s.expires_at ≤ s.refresh_expires_at))

/-- Rotation applied both tokens to a row-list: each row is either
untouched or carries both the new access token and the new refresh token. -/
def bothTokensApplied (a : Tok) (r : String) (old new : List SessionRow) : Prop :=
  List.Forall₂ (fun ro rn => rn = ro ∨ (rn.session_token = a ∧ rn.refresh_token = r)) old new

/-! ## Concrete fixtures (used by witnesses and counterexamples) -/

/-- A valid access token for user 5 under the default secret, issued at 0,
expiring at 60. -/
def tokA : Tok :=
  .jwt { userId := 5, userType := some "voter", adminRole := none } 0 60 defaultConfig.secret

/-- A session row for `tokA`: active, access expiry 60, refresh expiry 120,
device `"dev"`, refresh token `"r1"` — role snapshot with a NULL
`admin_role`. -/
def rowA : SessionRow :=
  { id := 1, user_id := 5, session_token := tokA, refresh_token := "r1"
  , jwt_token_id := 10, device_id := some "dev", ip_address := none, user_agent := none
  , user_type := some "voter", admin_role := none, is_active := true
  , created_at := 0, expires_at := 60, refresh_expires_at := 120, last_activity := 0 }

/-- A store holding user 5 and the session `rowA`. -/
def dbA : DB :=
  { users := [{ user_id := 5, user_type := some "voter", admin_role := none }]
  , sessions := [rowA], keys := [], questions := [] }

/-- A key row for user 42 (symbolic key pair 7). -/
def keyQ : KeyRow :=
  { user_id := 42, public_key := 7, encrypted_private_key := 7 }

/-- The stored security question of the spec's scenario: `"pet name?"`
with answer `"Rex"`, encrypted under key pair 7 and hashed. -/
def rowQ : QuestionRow :=
  { id := 1, user_id := 42, question := "pet name?"
  , encrypted_answer := rsaEncrypt 7 "Rex", signature_ := sha256 "Rex" }

/-- A store holding the key pair and question of user 42. -/
def dbQ : DB :=
  { users := [], sessions := [], keys := [keyQ], questions := [rowQ] }

/-! ## Claim theorems -/

/-- C2: `rotateRefreshToken(refreshToken, deviceId)` fails with
`RefreshTokenInvalid` if and only if zero active, non-expired session rows
match the (refreshToken, deviceId) pair.  A wrong refresh token, a wrong
device id and an expired session all make the match filter empty, hence
all produce this one error and are indistinguishable to the caller. -/
theorem rotate_refreshTokenInvalid_iff_no_match
    (cfg : Config) (now : Nat) (fr : String) (fg : Nat) (db : DB) (rt did : String) :
    (rotateRefreshToken cfg now fr fg db rt did).result = .error .RefreshTokenInvalid ↔
      db.sessions.filter (rotateMatch now rt did) = [] := by
  unfold rotateRefreshToken
  cases h : db.sessions.filter (rotateMatch now rt did) with
  | nil => simp
  | cons s rest =>
      cases ha : parseExpiryToSeconds cfg.accessExpiry <;>
        cases hb : parseExpiryToSeconds cfg.refreshExpiry <;> simp

/-- C6: when access-token verification fails with `TokenExpired` and the
refresh token or the device id is absent (missing or empty), the gate
fails with 401 `TOKEN_EXPIRED_NO_REFRESH`, leaves the session store
untouched, and surfaces no rotation. -/
theorem gate_expired_missing_refresh
    (cfg : Config) (now : Nat) (fr : String) (fg : Nat) (db : DB) (tok : Tok)
    (rt did : Option String)
    (hexp : verifyAccessToken cfg now tok = .error .TokenExpired)
    (hmiss : jsPresent rt = false ∨ jsPresent did = false) :
    authenticateToken cfg now fr fg db (some tok) rt did =
      { outcome := .fail 401 "TOKEN_EXPIRED_NO_REFRESH", db := db, newTokenHeaders := none } := by
  cases tok with
  | raw s => simp [verifyAccessToken] at hexp
  | jwt c iat exp secret =>
      simp only [authenticateToken, tokPresent, hexp]
      rw [if_pos hmiss]
      simp

/-- C1: a request presenting an access token that verifies (valid signature,
unexpired) and matches at least one active, non-expired session row
authenticates: the gate resolves the identity to exactly the token's decoded
claims, reports no rotation, and the only store change is the activity
UPDATE — afterwards every row holding this access token has
`last_activity = now`. -/
theorem gate_valid_token_success
    (cfg : Config) (now : Nat) (fr : String) (fg : Nat) (db : DB) (tok : Tok)
    (rt did : Option String) (c : Claims)
    (hok : verifyAccessToken cfg now tok = .ok c)
    (hrow : db.sessions.filter (sessionMatch now tok) ≠ []) :
    authenticateToken cfg now fr fg db (some tok) rt did =
      { outcome := .success c false, db := touchSessions now tok db, newTokenHeaders := none }
    ∧ ∀ s ∈ (touchSessions now tok db).sessions, s.session_token = tok → s.last_activity = now := by
  constructor
  · cases tok with
    | raw s => simp [verifyAccessToken] at hok
    | jwt cl iat exp secret =>
        simp only [authenticateToken, tokPresent, hok, sessionCheck, List.length_eq_zero]
        rw [if_neg hrow]
        simp
  · intro s hs hst
    simp only [touchSessions, List.mem_map] at hs
    obtain ⟨t, _, ht⟩ := hs
    by_cases h : t.session_token = tok
    · rw [if_pos h] at ht
      simp [← ht]
    · rw [if_neg h] at ht
      exact absurd (ht ▸ hst) h

/-- C1 witness: at time 30 the fixture token `tokA` verifies and matches the
active fixture row, so the gate succeeds with the token's claims and stamps
the activity timestamp. -/
theorem gate_valid_token_success_witness :
    authenticateToken defaultConfig 30 "r2" 11 dbA (some tokA) none none =
      { outcome := .success { userId := 5, userType := some "voter", adminRole := none } false
      , db := touchSessions 30 tokA dbA, newTokenHeaders := none }
    ∧ ∀ s ∈ (touchSessions 30 tokA dbA).sessions, s.session_token = tokA → s.last_activity = 30 :=
  gate_valid_token_success defaultConfig 30 "r2" 11 dbA tokA none none
    { userId := 5, userType := some "voter", adminRole := none }
    rfl (by decide)

/-- C6 witness: at time 70 the fixture token `tokA` (expiry 60) is expired
and no device id is supplied, so the gate fails with
`TOKEN_EXPIRED_NO_REFRESH` and the store is unchanged. -/
theorem gate_expired_missing_refresh_witness :
    authenticateToken defaultConfig 70 "r2" 11 dbA (some tokA) (some "r1") none =
      { outcome := .fail 401 "TOKEN_EXPIRED_NO_REFRESH", db := dbA, newTokenHeaders := none } :=
  gate_expired_missing_refresh defaultConfig 70 "r2" 11 dbA tokA (some "r1") none
    rfl (Or.inr rfl)

/-- C3: rotation is atomic.  Every store state observable during a
`rotateRefreshToken` call (the trace records the state after each SQL
statement) is either the original store or a store in which every row is
untouched except rows carrying BOTH the returned new access token and the
returned new refresh token; on success the final store has both tokens
applied, and on failure (`RefreshTokenInvalid` or `Internal` — the only
errors) the store is exactly the original.  No state with only one of the
two tokens applied is ever observable. -/
theorem rotate_atomic
    (cfg : Config) (now : Nat) (fr : String) (fg : Nat) (db : DB) (rt did : String) :
    (∀ s ∈ (rotateRefreshToken cfg now fr fg db rt did).trace,
        s = db ∨ ∃ a r, (rotateRefreshToken cfg now fr fg db rt did).result = .ok (a, r) ∧
          bothTokensApplied a r db.sessions s.sessions)
    ∧ (∀ a r, (rotateRefreshToken cfg now fr fg db rt did).result = .ok (a, r) →
        bothTokensApplied a r db.sessions (rotateRefreshToken cfg now fr fg db rt did).db.sessions)
    ∧ (∀ e, (rotateRefreshToken cfg now fr fg db rt did).result = .error e →
        (rotateRefreshToken cfg now fr fg db rt did).db = db ∧
          (e = .RefreshTokenInvalid ∨ e = .Internal)) := by
  unfold rotateRefreshToken
  cases h : db.sessions.filter (rotateMatch now rt did) with
  | nil =>
      refine ⟨?_, ?_, ?_⟩
      · intro s hs
        simp at hs
        exact Or.inl hs
      · intro a r hr
        simp at hr
      · intro e he
        simp at he
        simp [← he]
  | cons s0 rest =>
      cases ha : parseExpiryToSeconds cfg.accessExpiry with
      | none =>
          refine ⟨?_, ?_, ?_⟩
          · intro s hs; simp at hs; exact Or.inl hs
          · intro a r hr; simp at hr
          · intro e he; simp at he; simp [← he]
      | some aSec =>
          cases hb : parseExpiryToSeconds cfg.refreshExpiry with
          | none =>
              refine ⟨?_, ?_, ?_⟩
              · intro s hs; simp at hs; exact Or.inl hs
              · intro a r hr; simp at hr
              · intro e he; simp at he; simp [← he]
          | some rSec =>
              have happlied : bothTokensApplied
                  (generateAccessToken cfg now aSec
                    { userId := s0.user_id, userType := some (jsOr s0.user_type "voter")
                    , adminRole := some (jsOr s0.admin_role "analyst") }) fr
                  db.sessions
                  (db.sessions.map (fun r =>
                    if r.id = s0.id then
                      { r with
                        session_token := generateAccessToken cfg now aSec
                          { userId := s0.user_id, userType := some (jsOr s0.user_type "voter")
                          , adminRole := some (jsOr s0.admin_role "analyst") },
                        refresh_token := fr,
                        jwt_token_id := fg,
                        expires_at := now + aSec,
                        refresh_expires_at := now + rSec,
                        last_activity := now }
                    else r)) := by
                unfold bothTokensApplied
                rw [List.forall₂_map_right_iff]
                rw [List.forall₂_same]
                intro x _
                by_cases hx : x.id = s0.id
                · rw [if_pos hx]
                  exact Or.inr ⟨rfl, rfl⟩
                · rw [if_neg hx]
                  exact Or.inl rfl
              refine ⟨?_, ?_, ?_⟩
              · intro s hs
                simp only [List.mem_cons, List.mem_singleton, List.not_mem_nil, or_false] at hs
                cases hs with
                | inl h1 => exact Or.inl h1
                | inr h2 =>
                    refine Or.inr ⟨_, fr, rfl, ?_⟩
                    rw [h2]
                    exact happlied
              · intro a r hr
                simp only [Except.ok.injEq, Prod.mk.injEq] at hr
                obtain ⟨ha2, hr2⟩ := hr
                rw [← ha2, ← hr2]
                exact happlied
              · intro e he
                simp at he

/-- C3 witness: rotating with a refresh token matching no session row fails
with `RefreshTokenInvalid` and leaves the store exactly as it was. -/
theorem rotate_atomic_witness :
    (rotateRefreshToken defaultConfig 70 "r2" 11 dbA "bad" "dev").db = dbA ∧
      (RotErr.RefreshTokenInvalid = RotErr.RefreshTokenInvalid ∨
        RotErr.RefreshTokenInvalid = RotErr.Internal) :=
  (rotate_atomic defaultConfig 70 "r2" 11 dbA "bad" "dev").2.2 RotErr.RefreshTokenInvalid rfl

/-- C4 counterexample: the claim "the new access token's claims are taken
verbatim from the matched session row's role snapshot" fails.  At time 70
the pair `("r1", "dev")` matches exactly the fixture row `rowA`, whose
snapshot has `admin_role = NULL`; rotation succeeds and the issued token
carries `adminRole = 'analyst'` — not the snapshot's `NULL` — because the
code applies the falsy-fallback `session.admin_role || 'analyst'`. -/
theorem rotate_claims_not_verbatim :
    (rotateRefreshToken defaultConfig 70 "r2" 11 dbA "r1" "dev").result =
      .ok (Tok.jwt { userId := 5, userType := some "voter", adminRole := some "analyst" }
             70 130 defaultConfig.secret, "r2")
    ∧ dbA.sessions.filter (rotateMatch 70 "r1" "dev") = [rowA]
    ∧ rowA.admin_role ≠ some "analyst" :=
  ⟨rfl, rfl, by decide⟩

/-- C4 (amended): on every successful rotation the new access token's
claims are computed from the matched session row's denormalized role
snapshot alone — `userId` is the row's `user_id`, and `userType` /
`adminRole` are the row's snapshot fields with the falsy-fallback defaults
`'voter'` / `'analyst'` — and never from the user table: the rotation
result is invariant under arbitrary changes to the user table. -/
theorem rotate_claims_from_snapshot
    (cfg : Config) (now : Nat) (fr : String) (fg : Nat) (db : DB) (rt did : String)
    (s0 : SessionRow) (rest : List SessionRow) (a : Tok) (r : String)
    (hfilter : db.sessions.filter (rotateMatch now rt did) = s0 :: rest)
    (hok : (rotateRefreshToken cfg now fr fg db rt did).result = .ok (a, r)) :
    (∃ aSec, parseExpiryToSeconds cfg.accessExpiry = some aSec ∧
        a = Tok.jwt { userId := s0.user_id, userType := some (jsOr s0.user_type "voter")
                    , adminRole := some (jsOr s0.admin_role "analyst") } now (now + aSec) cfg.secret)
    ∧ r = fr
    ∧ ∀ users2, (rotateRefreshToken cfg now fr fg { db with users := users2 } rt did).result =
        (rotateRefreshToken cfg now fr fg db rt did).result := by
  have hsessions : ∀ users2 : List UserRow,
      ({ db with users := users2 } : DB).sessions = db.sessions := fun _ => rfl
  unfold rotateRefreshToken at hok ⊢
  rw [hfilter] at hok ⊢
  simp only [hsessions, hfilter]
  cases ha : parseExpiryToSeconds cfg.accessExpiry with
  | none =>
      rw [ha] at hok
      simp at hok
  | some aSec =>
      rw [ha] at hok
      cases hb : parseExpiryToSeconds cfg.refreshExpiry with
      | none =>
          rw [hb] at hok
          simp at hok
      | some rSec =>
          rw [hb] at hok
          simp only [Except.ok.injEq, Prod.mk.injEq] at hok
          obtain ⟨ha2, hr2⟩ := hok
          exact ⟨⟨aSec, rfl, ha2.symm⟩, hr2.symm, fun _ => rfl⟩

/-- C4 witness: instantiating the amended theorem on the fixture store —
the rotation of `("r1", "dev")` at time 70 issues a token whose claims come
from `rowA`'s snapshot with the fallback defaults, pairs it with the fresh
refresh token, and ignores the user table. -/
theorem rotate_claims_from_snapshot_witness :
    (∃ aSec, parseExpiryToSeconds defaultConfig.accessExpiry = some aSec ∧
        Tok.jwt { userId := 5, userType := some "voter", adminRole := some "analyst" }
            70 130 defaultConfig.secret =
          Tok.jwt { userId := rowA.user_id, userType := some (jsOr rowA.user_type "voter")
                  , adminRole := some (jsOr rowA.admin_role "analyst") } 70 (70 + aSec)
            defaultConfig.secret)
    ∧ "r2" = "r2"
    ∧ ∀ users2, (rotateRefreshToken defaultConfig 70 "r2" 11 { dbA with users := users2 }
          "r1" "dev").result =
        (rotateRefreshToken defaultConfig 70 "r2" 11 dbA "r1" "dev").result :=
  rotate_claims_from_snapshot defaultConfig 70 "r2" 11 dbA "r1" "dev" rowA []
    (Tok.jwt { userId := 5, userType := some "voter", adminRole := some "analyst" }
      70 130 defaultConfig.secret) "r2" rfl rfl

/-- C7: the session-row invariant `access-expiry ≤ refresh-expiry` is
preserved by both operations that set the two expiry timestamps.  Both
`createSession` and `rotateRefreshToken` set them to `NOW() + aSec` and
`NOW() + rSec` from the same clock reading, so whenever the configured
durations satisfy `aSec ≤ rSec` (as the shipped `'1m'`/`'2m'` defaults do),
every row of the resulting store satisfies the invariant provided every
row of the incoming store did. -/
theorem expiry_invariant_preserved
    (cfg : Config) (aSec rSec : Nat)
    (ha : parseExpiryToSeconds cfg.accessExpiry = some aSec)
    (hb : parseExpiryToSeconds cfg.refreshExpiry = some rSec)
    (hle : aSec ≤ rSec) :
    (∀ now jti newId db uid tk rt did ip ua db2 a r,
        (∀ s ∈ DB.sessions db, rowExpiryInv s) →
        createSession cfg now jti newId db uid tk rt did ip ua = .ok (db2, a, r) →
        ∀ s ∈ DB.sessions db2, rowExpiryInv s)
    ∧ (∀ now fr fg db rt did,
        (∀ s ∈ DB.sessions db, rowExpiryInv s) →
        ∀ s ∈ DB.sessions (rotateRefreshToken cfg now fr fg db rt did).db, rowExpiryInv s) := by
  constructor
  · intro now jti newId db uid tk rt did ip ua db2 a r hinv hcreate
    unfold createSession at hcreate
    rw [ha, hb] at hcreate
    cases hu : (db.users.filter (userMatch uid)).head? with
    | none => rw [hu] at hcreate; simp at hcreate
    | some u =>
        rw [hu] at hcreate
        simp only [Except.ok.injEq, Prod.mk.injEq] at hcreate
        obtain ⟨hdb2, -, -⟩ := hcreate
        rw [← hdb2]
        intro s hs
        simp only [List.mem_append, List.mem_singleton] at hs
        cases hs with
        | inl h1 => exact hinv s h1
        | inr h2 =>
            rw [h2]
            exact Nat.add_le_add_left hle now
  · intro now fr fg db rt did hinv
    unfold rotateRefreshToken
    cases h : db.sessions.filter (rotateMatch now rt did) with
    | nil => exact hinv
    | cons s0 rest =>
        rw [ha, hb]
        intro s hs
        simp only [List.mem_map] at hs
        obtain ⟨t, ht, hts⟩ := hs
        by_cases hid : t.id = s0.id
        · rw [if_pos hid] at hts
          rw [← hts]
          exact Nat.add_le_add_left hle now
        · rw [if_neg hid] at hts
          rw [← hts]
          exact hinv t ht

/-- C7 witness: under the shipped defaults (`'1m'` = 60 ≤ `'2m'` = 120),
rotating the fixture store — whose sole row satisfies the invariant —
yields a store whose rotated row (expiries 130 and 190) satisfies
`expires_at ≤ refresh_expires_at`. -/
theorem expiry_invariant_preserved_witness :
    rowExpiryInv { rowA with
      session_token := Tok.jwt
        { userId := 5, userType := some "voter", adminRole := some "analyst" }
        70 130 defaultConfig.secret,
      refresh_token := "r2", jwt_token_id := 11,
      expires_at := 130, refresh_expires_at := 190, last_activity := 70 } :=
  (expiry_invariant_preserved defaultConfig 60 120 rfl rfl (by decide)).2
    70 "r2" 11 dbA "r1" "dev" (by decide) _ (by decide)

/-- Helper: the verification loop skips over a prefix of passing answers. -/
theorem checkAnswers_append_of_ok (priv : Nat) (rows : List QuestionRow)
    (pre rest : List Answer)
    (h : ∀ p ∈ pre, answerOk priv rows p = true) :
    checkAnswers priv rows (pre ++ rest) = checkAnswers priv rows rest := by
  induction pre with
  | nil => rfl
  | cons p ps ih =>
      have hp := h p (List.mem_cons_self p ps)
      have hps : ∀ q ∈ ps, answerOk priv rows q = true :=
        fun q hq => h q (List.mem_cons_of_mem p hq)
      unfold answerOk at hp
      simp only [List.cons_append, checkAnswers]
      cases hfind : (rows.filter (fun q => q.id = p.questionId)).head? with
      | none => simp [hfind] at hp
      | some dbQ =>
          simp only [hfind] at hp ⊢
          cases hdec : rsaDecrypt priv dbQ.encrypted_answer with
          | error e => simp [hdec] at hp
          | ok d =>
              simp only [hdec] at hp ⊢
              simp only [Bool.and_eq_true, decide_eq_true_eq] at hp
              obtain ⟨hd, hsig⟩ := hp
              rw [if_neg (by simp [hd]), if_neg (by simp [hsig])]
              exact ih hps

/-- C5: error behaviour of `verifySecurityAnswers(userId, answers)`.  With
no key-pair row the call fails with `KeysNotFound`.  With a key-pair row,
for any decomposition of the answer list into a passing prefix, a failing
answer, and an arbitrary remainder: an unknown question id fails the whole
call with `InvalidQuestionId`, a decrypted stored answer differing
(case-sensitively) from the supplied one fails it with `AnswerMismatch`,
and a matching answer whose recomputed hash disagrees with the stored
signature fails it with `SignatureMismatch` — in every case regardless of
the remaining answers, so a single failure aborts the call with no partial
success (the operation is read-only on the store by construction). -/
theorem verify_answers_error_cases (db : DB) (uid : Nat) (answers : List Answer) :
    (keyFor db uid = none → verifySecurityAnswers db uid answers = .error .KeysNotFound)
    ∧ (∀ keyRow, keyFor db uid = some keyRow →
        ∀ pre a post, answers = pre ++ a :: post →
        (∀ p ∈ pre, answerOk keyRow.encrypted_private_key
            (userQuestions db uid (answers.map (fun x => x.questionId))) p = true) →
        (((userQuestions db uid (answers.map (fun x => x.questionId))).filter
              (fun q => q.id = a.questionId)).head? = none →
            verifySecurityAnswers db uid answers = .error .InvalidQuestionId)
        ∧ (∀ q d, ((userQuestions db uid (answers.map (fun x => x.questionId))).filter
              (fun q2 => q2.id = a.questionId)).head? = some q →
            rsaDecrypt keyRow.encrypted_private_key q.encrypted_answer = .ok d →
            d ≠ a.answer →
            verifySecurityAnswers db uid answers = .error .AnswerMismatch)
        ∧ (∀ q, ((userQuestions db uid (answers.map (fun x => x.questionId))).filter
              (fun q2 => q2.id = a.questionId)).head? = some q →
            rsaDecrypt keyRow.encrypted_private_key q.encrypted_answer = .ok a.answer →
            sha256 a.answer ≠ q.signature_ →
            verifySecurityAnswers db uid answers = .error .SignatureMismatch)) := by
  constructor
  · intro hnone
    unfold verifySecurityAnswers
    rw [hnone]
  · intro keyRow hk pre a post hsplit hpre
    have hskip := checkAnswers_append_of_ok keyRow.encrypted_private_key
      (userQuestions db uid (answers.map (fun x => x.questionId))) pre (a :: post) hpre
    have hbody : verifySecurityAnswers db uid answers =
        checkAnswers keyRow.encrypted_private_key
          (userQuestions db uid (answers.map (fun x => x.questionId))) (a :: post) := by
      unfold verifySecurityAnswers
      simp only [hk]
      rw [← hskip, ← hsplit]
    refine ⟨?_, ?_, ?_⟩
    · intro hfind
      rw [hbody]
      simp only [checkAnswers, hfind]
    · intro q d hfind hdec hne
      rw [hbody]
      simp only [checkAnswers, hfind, hdec]
      rw [if_pos hne]
    · intro q hfind hdec hsig
      rw [hbody]
      simp only [checkAnswers, hfind, hdec]
      rw [if_neg (by simp), if_pos hsig]

/-- C5 witness: the spec's scenario on the fixture store — user 42 has the
question `"pet name?"` with stored answer `"Rex"`; supplying the
case-mismatched `"rex"` fails the whole call with `AnswerMismatch`. -/
theorem verify_answers_error_cases_witness :
    verifySecurityAnswers dbQ 42 [{ questionId := 1, answer := "rex" }] =
      .error .AnswerMismatch :=
  ((verify_answers_error_cases dbQ 42 [{ questionId := 1, answer := "rex" }]).2
      keyQ rfl [] { questionId := 1, answer := "rex" } [] rfl
      (fun p hp => absurd hp (List.not_mem_nil p))).2.1
    rowQ "Rex" rfl rfl (by decide)

/-- C10: for a user holding a key-pair row, verifying an empty answer list
succeeds vacuously — the loop body never runs, no stored question is
consulted, and the call returns `true`. -/
theorem verify_empty_answers (db : DB) (uid : Nat) (k : KeyRow)
    (hk : keyFor db uid = some k) :
    verifySecurityAnswers db uid [] = .ok true := by
  unfold verifySecurityAnswers
  rw [hk]
  rfl

/-- C10 witness: user 42 of the fixture store has a key-pair row, and
verifying the empty list succeeds. -/
theorem verify_empty_answers_witness :
    verifySecurityAnswers dbQ 42 [] = .ok true :=
  verify_empty_answers dbQ 42 keyQ rfl

/-! ### Encryption-utility helper lemmas -/

/-- Hex digits decode back to their value. -/
theorem hexDigitVal_hexDigit (m : Nat) (hm : m < 16) :
    hexDigitVal (hexDigit m) = some m := by
  interval_cases m <;> decide

/-- Hex digits are never the envelope delimiter `':'`. -/
theorem hexDigit_ne_colon (m : Nat) (hm : m < 16) : hexDigit m ≠ ':' := by
  interval_cases m <;> decide

/-- Fixed-width hex renderings contain no `':'`. -/
theorem colon_not_mem_hexN (k n : Nat) : ':' ∉ hexN k n := by
  induction k generalizing n with
  | zero => simp [hexN]
  | succ k ih =>
      simp only [hexN, List.mem_cons, not_or]
      exact ⟨fun h => hexDigit_ne_colon _ (Nat.mod_lt _ (by norm_num)) h.symm, ih n⟩

/-- The symbolic cipher output contains no `':'`. -/
theorem colon_not_mem_encodeChars (cs : List Char) : ':' ∉ encodeChars cs := by
  intro h
  simp only [encodeChars, List.mem_flatMap] at h
  obtain ⟨c, -, hc⟩ := h
  exact colon_not_mem_hexN 6 c.toNat hc

/-- Hex renderings of byte lists contain no `':'`. -/
theorem colon_not_mem_bytesToHex (bs : List Nat) : ':' ∉ bytesToHex bs := by
  intro h
  simp only [bytesToHex, List.mem_flatMap] at h
  obtain ⟨b, -, hb⟩ := h
  exact colon_not_mem_hexN 2 (b % 256) hb

/-- The symbolic GCM tag contains no `':'`. -/
theorem colon_not_mem_gcmTag (k i c : List Char) : ':' ∉ gcmTag k i c :=
  colon_not_mem_encodeChars _

/-- The splitter `splitOnChar` never returns an empty group list. -/
theorem splitOnChar_ne_nil (sep : Char) (cs : List Char) : splitOnChar sep cs ≠ [] := by
  cases cs with
  | nil => simp [splitOnChar]
  | cons c rest =>
      simp only [splitOnChar]
      by_cases h : c = sep
      · simp [h]
      · rw [if_neg h]
        cases splitOnChar sep rest <;> simp

/-- Splitting a delimiter-free list yields that one group. -/
theorem splitOnChar_no_sep (sep : Char) (cs : List Char) (h : sep ∉ cs) :
    splitOnChar sep cs = [cs] := by
  induction cs with
  | nil => rfl
  | cons c rest ih =>
      simp only [List.mem_cons, not_or] at h
      simp only [splitOnChar, ih h.2]
      rw [if_neg (fun hc => h.1 hc.symm)]

/-- Splitting peels off a delimiter-free first group. -/
theorem splitOnChar_sep_append (sep : Char) (a rest : List Char) (h : sep ∉ a) :
    splitOnChar sep (a ++ sep :: rest) = a :: splitOnChar sep rest := by
  induction a with
  | nil => simp [splitOnChar]
  | cons c a2 ih =>
      simp only [List.mem_cons, not_or] at h
      have hcs : ¬ c = sep := fun hc => h.1 hc.symm
      simp [splitOnChar, hcs, ih h.2]

/-- Fixed-width hex decoding inverts fixed-width hex rendering. -/
theorem decodeN_hexN (k n : Nat) : decodeN k (hexN k n) = some (n % 16 ^ k) := by
  induction k generalizing n with
  | zero => simp [hexN, decodeN, Nat.mod_one]
  | succ k ih =>
      simp only [hexN, decodeN, hexDigitVal_hexDigit _ (Nat.mod_lt _ (by norm_num)), ih]
      have h16 : (16 : Nat) ^ (k + 1) = 16 ^ k * 16 := by ring
      rw [h16, Nat.mod_mul]
      ring_nf

/-- Every code point is below the six-hex-digit capacity. -/
theorem char_toNat_lt (c : Char) : c.toNat < 16 ^ 6 := by
  have h := c.valid
  have he : (16 : Nat) ^ 6 = 16777216 := by norm_num
  rw [he]
  show c.val.toNat < 16777216
  rcases h with h | ⟨-, h⟩ <;> omega

/-- Rebuilding a code point with `Char.ofNatAux` round-trips. -/
theorem charOfNatAux_toNat (c : Char) (h : c.toNat.isValidChar) :
    Char.ofNatAux c.toNat h = c := by
  apply Char.eq_of_val_eq
  apply UInt32.eq_of_toBitVec_eq
  apply BitVec.eq_of_toNat_eq
  simp only [Char.ofNatAux, BitVec.toNat_ofNatLt]
  rfl

/-- The hex decoder inverts the symbolic cipher. -/
theorem decodeChars_encodeChars (cs : List Char) :
    decodeChars (encodeChars cs) = some cs := by
  induction cs with
  | nil => rfl
  | cons c rest ih =>
      have hsix : encodeChars (c :: rest) =
          hexDigit (c.toNat / 16 ^ 5 % 16) :: hexDigit (c.toNat / 16 ^ 4 % 16) ::
          hexDigit (c.toNat / 16 ^ 3 % 16) :: hexDigit (c.toNat / 16 ^ 2 % 16) ::
          hexDigit (c.toNat / 16 ^ 1 % 16) :: hexDigit (c.toNat / 16 ^ 0 % 16) ::
          encodeChars rest := rfl
      rw [hsix]
      have hdec6 : decodeN 6 [hexDigit (c.toNat / 16 ^ 5 % 16), hexDigit (c.toNat / 16 ^ 4 % 16),
          hexDigit (c.toNat / 16 ^ 3 % 16), hexDigit (c.toNat / 16 ^ 2 % 16),
          hexDigit (c.toNat / 16 ^ 1 % 16), hexDigit (c.toNat / 16 ^ 0 % 16)] =
          some c.toNat := by
        have := decodeN_hexN 6 c.toNat
        rw [Nat.mod_eq_of_lt (char_toNat_lt c)] at this
        exact this
      have hval : c.toNat.isValidChar := c.valid
      simp only [decodeChars, hdec6, ih]
      rw [dif_pos hval]
      rw [charOfNatAux_toNat c hval]

/-- C8: round-trip — for every non-empty plaintext, decrypting the envelope
produced by `encryptSensitiveData` returns exactly the original plaintext,
for any key and any IV bytes. -/
theorem decryptField_encryptField_roundtrip (key : String) (iv : List Nat) (x : String)
    (hx : x ≠ "") :
    decryptSensitiveData key (encryptSensitiveData key iv x) = some x := by
  simp only [encryptSensitiveData]
  rw [if_neg hx]
  set env : List Char :=
    bytesToHex iv ++ ':' :: gcmTag key.data (bytesToHex iv) (encodeChars x.data) ++
      ':' :: encodeChars x.data with henv
  have hmem : ':' ∈ env := by
    rw [henv]
    simp
  have hdata : (String.mk env).data = env := rfl
  simp only [decryptSensitiveData]
  rw [if_neg ?hcond]
  case hcond =>
    rw [not_or]
    constructor
    · intro hemp
      rw [show ("" : String) = String.mk [] from rfl] at hemp
      have : env = [] := by
        have := congrArg String.data hemp
        simpa using this
      rw [this] at hmem
      simp at hmem
    · simp only [hdata, List.contains, not_not]
      rw [List.elem_eq_mem]
      exact decide_eq_true hmem
  have hsplit : splitOnChar ':' env =
      [bytesToHex iv, gcmTag key.data (bytesToHex iv) (encodeChars x.data), encodeChars x.data] := by
    rw [henv, List.append_assoc, List.cons_append]
    rw [splitOnChar_sep_append ':' _ _ (colon_not_mem_bytesToHex iv)]
    rw [splitOnChar_sep_append ':' _ _ (colon_not_mem_gcmTag _ _ _)]
    rw [splitOnChar_no_sep ':' _ (colon_not_mem_encodeChars _)]
  simp only [decryptCore, hdata, hsplit]
  simp [decodeChars_encodeChars]

/-- C8 witness: a concrete round-trip — encrypting `"hello@x.com"` under a
concrete key and IV and decrypting the envelope returns the plaintext. -/
theorem decryptField_encryptField_roundtrip_witness :
    decryptSensitiveData "k0" (encryptSensitiveData "k0" [1, 2, 255] "hello@x.com") =
      some "hello@x.com" :=
  decryptField_encryptField_roundtrip "k0" [1, 2, 255] "hello@x.com" (by decide)

/-- C9: `decryptSensitiveData` is total and fails open.  A `null` input is
returned as-is; for every string input, whenever the decryption body fails
(malformed envelope, too few components, tag mismatch, undecodable
ciphertext) the input is returned unchanged; and in general every call
returns either its input unchanged or a successful decryption of it —
never an exception. -/
theorem decryptField_total_fails_open (key : String) :
    (∀ s : String, decryptCore key s = none →
        decryptSensitiveData key (some s) = some s)
    ∧ (∀ e : Option String, decryptSensitiveData key e = e ∨
        ∃ s d, e = some s ∧ decryptCore key s = some d ∧
          decryptSensitiveData key e = some d) := by
  constructor
  · intro s hcore
    simp only [decryptSensitiveData]
    by_cases hc : s = "" ∨ ¬ s.data.contains ':'
    · rw [if_pos hc]
    · rw [if_neg hc, hcore]
  · intro e
    cases e with
    | none => exact Or.inl rfl
    | some s =>
        simp only [decryptSensitiveData]
        by_cases hc : s = "" ∨ ¬ s.data.contains ':'
        · rw [if_pos hc]
          exact Or.inl rfl
        · rw [if_neg hc]
          cases hcore : decryptCore key s with
          | none => exact Or.inl rfl
          | some d => exact Or.inr ⟨s, d, rfl, hcore, rfl⟩

/-- C9 witness: a malformed envelope (`"garbage"`, no delimiter) is
returned unchanged. -/
theorem decryptField_total_fails_open_witness :
    decryptSensitiveData "k0" (some "garbage") = some "garbage" :=
  (decryptField_total_fails_open "k0").1 "garbage" rfl

end UserMgmt
